import Mathlib

/-!
Shallow embedding of `src/index.py` of the coffee-maker Alexa skill.

The Python module routes an incoming event to one of three handlers keyed
by the request type string, and builds the Alexa reply dictionary.  The
embedding keeps the source's names (snake_case turned lowerCamel where a
field accessor needs it), models Python dictionaries whose key sets are
fixed by the code as structures, the optional `value` key of a slot as an
`Option`, and uncaught Python exceptions as an `Except` error result.
Numeric work (`num_cups * SCOOPS_PER_CUP` with `{:.2g}` formatting) is
modelled as the source computes it, in IEEE-754 binary64: `SCOOPS_PER_CUP`
is the double nearest 5/6, the parsed int is converted to a double
(raising `OverflowError` past the binary64 range, as CPython's
int-to-float conversion does), and the product is the correctly rounded
double product.  Doubles are carried as exact integer fractions (`Frac`,
with `Frac.toRat` giving the value in `ℚ`) so the kernel can evaluate
them, and rounding is round-to-nearest, ties to even, on a 53-bit
significand.  The `%.2g` rendering rules (round half to even to two
significant digits, strip trailing zeros, fixed notation for decimal
exponents in [-4, 2), otherwise scientific notation with a signed
two-digit exponent) follow the format spec that Python's str.format
implements on the exact value of the double, and every concrete rendering
proved below agrees with the Python output on the same input.
-/

/-- Uncaught Python exceptions that the module can raise: `KeyError` from a
dictionary lookup, `ValueError` from `int()` or the explicit raise in
`on_intent`, and `OverflowError` from converting a parsed int beyond the
binary64 range to a float in `num_cups * SCOOPS_PER_CUP`. -/
inductive PyErr where
  | keyError : PyErr
  | valueError : PyErr
  | overflowError : PyErr
  deriving DecidableEq, Repr

/-- The `intent` dictionary of an IntentRequest: a `name` string and a
`slots` dictionary mapping a slot name to a slot dictionary whose `value`
key may be absent (`none`). -/
structure Intent where
  name : String
  slots : List (String × Option String)
  deriving DecidableEq, Repr

/-- The `request` dictionary of the incoming event: a free-form `type` tag
and, when present, the `intent` dictionary. -/
structure Request where
  type : String
  intent : Option Intent
  deriving DecidableEq, Repr

/-- The opaque `session` dictionary: the module only passes it along, so any
key-value content will do. -/
abbrev Session := List (String × String)

/-- The opaque lambda `context` argument, never read by the module. -/
abbrev Context := List (String × String)

/-- The incoming event: `event['request']` and `event['session']`. -/
structure Event where
  request : Request
  session : Session
  deriving DecidableEq, Repr

/-- The dictionary built by `build_output_speech`. -/
structure OutputSpeech where
  type : String
  text : String
  deriving DecidableEq, Repr

/-- The dictionary built by `build_card` in its non-`None` case. -/
structure Card where
  type : String
  title : String
  content : String
  deriving DecidableEq, Repr

/-- The dictionary built by `build_reprompt` in its non-`None` case. -/
structure Reprompt where
  outputSpeech : OutputSpeech
  deriving DecidableEq, Repr

/-- The inner `response` dictionary assembled by `build_response`. -/
structure ResponseBody where
  card : Option Card
  outputSpeech : OutputSpeech
  reprompt : Option Reprompt
  shouldEndSession : Bool
  deriving DecidableEq, Repr

/-- The full reply dictionary assembled by `build_response`. -/
structure Response where
  version : String
  sessionAttributes : List (String × String)
  response : ResponseBody
  deriving DecidableEq, Repr

/-- Python truthiness of an optional string (`if not title`): `None` and the
empty string are falsy. -/
def truthy : Option String → Bool
  | none => false
  | some s => s != ""

/-- A rational value carried as an explicit integer fraction (numerator and
positive denominator), so that the kernel can evaluate the arithmetic. -/
structure Frac where
  num : Int
  den : Int
  deriving DecidableEq, Repr

/-- The exact value of a fraction in `ℚ`. -/
def Frac.toRat (f : Frac) : ℚ := (f.num : ℚ) / (f.den : ℚ)

/-- Strip leading and trailing whitespace, as Python `int()` does before
parsing. -/
def pyStrip (cs : List Char) : List Char :=
  ((cs.dropWhile Char.isWhitespace).reverse.dropWhile Char.isWhitespace).reverse

/-- Python `int(s)` for a decimal string: strip surrounding whitespace,
allow one optional sign, then require a nonempty run of decimal digits;
any other shape raises `ValueError`, modelled as `none`. -/
def parseIntPy (s : String) : Option Int :=
  let cs := pyStrip s.data
  let signed : Bool × List Char :=
    match cs with
    | '-' :: rest => (true, rest)
    | '+' :: rest => (false, rest)
    | _ => (false, cs)
  let digits := signed.2
  if digits ≠ [] ∧ digits.all Char.isDigit then
    let n : Nat := digits.foldl (fun acc c => 10 * acc + (c.toNat - '0'.toNat)) 0
    some (if signed.1 then -(n : Int) else (n : Int))
  else
    none

/-- Ten to a natural power, by structural recursion (four steps at a time,
to keep the kernel's reduction depth low) so that the kernel can evaluate
it. -/
def tenPowInt : Nat → Int
  | 0 => 1
  | 1 => 10
  | 2 => 100
  | 3 => 1000
  | n + 4 => 10000 * tenPowInt n

/-- Length of the decimal representation of `n` (0 for `n = 0`), with the
number itself as structural fuel. -/
def digitsLenAux : Nat → Nat → Nat
  | 0, _ => 0
  | fuel + 1, n => if n = 0 then 0 else digitsLenAux fuel (n / 10) + 1

/-- Number of decimal digits of a natural number. -/
def digitsLen (n : Nat) : Nat := digitsLenAux n n

/-- Round the fraction `p / q` (with `q > 0`) to the nearest integer, ties
to the even integer: the rounding that IEEE formatting (and hence Python's
`{:.2g}`) applies. -/
def roundHalfEvenFrac (p q : Int) : Int :=
  let fl := p / q
  let r2 := 2 * (p - q * fl)
  if r2 < q then fl
  else if q < r2 then fl + 1
  else if fl % 2 = 0 then fl else fl + 1

/-- Two to a natural power, by structural recursion (four steps at a time,
to keep the kernel's reduction depth low) so that the kernel can evaluate
it. -/
def twoPowInt : Nat → Int
  | 0 => 1
  | 1 => 2
  | 2 => 4
  | 3 => 8
  | n + 4 => 16 * twoPowInt n

/-- Length of the binary representation of `n` (0 for `n = 0`), with the
number itself as structural fuel, consuming four bits per step to keep the
kernel's reduction depth low. -/
def bitsLenAux : Nat → Nat → Nat
  | 0, _ => 0
  | fuel + 1, n =>
    if n = 0 then 0
    else if n < 2 then 1
    else if n < 4 then 2
    else if n < 8 then 3
    else if n < 16 then 4
    else bitsLenAux fuel (n / 16) + 4

/-- Number of binary digits of a natural number. -/
def bitsLen (n : Nat) : Nat := bitsLenAux n n

/-- Binary exponent of the positive fraction `n / d`: the unique `e` with
`2 ^ e ≤ n / d < 2 ^ (e + 1)`. -/
def binExpFrac (n d : Int) : Int :=
  if d ≤ n then (bitsLen (n / d).toNat : Int) - 1
  else
    let f : Nat := bitsLen (d / n).toNat - 1
    if n * twoPowInt f = d then -(f : Int) else -((f : Int) + 1)

/-- Round the positive fraction `n / d` to the nearest IEEE-754 binary64
value (53-bit significand, round half to even), returning its exact value
as a fraction; `none` is overflow (result at or beyond 2 ^ 1024, where
CPython's int-to-float conversion raises `OverflowError`).  The subnormal
range is not modelled: the smallest nonzero magnitude this program ever
rounds is 5/6. -/
def roundDbl (n d : Int) : Option Frac :=
  let e0 := binExpFrac n d
  let k := 52 - e0
  let p := if 0 ≤ k then n * twoPowInt k.toNat else n
  let q := if 0 ≤ k then d else d * twoPowInt (-k).toNat
  let m0 := roundHalfEvenFrac p q
  let m := if m0 = twoPowInt 53 then twoPowInt 52 else m0
  let e := if m0 = twoPowInt 53 then e0 + 1 else e0
  if 1023 < e then none
  else if 52 ≤ e then some ⟨m * twoPowInt (e - 52).toNat, 1⟩
  else some ⟨m, twoPowInt (52 - e).toNat⟩

/-- Round an exact fraction to the nearest binary64 value (sign handled,
zero exact, `none` on overflow). -/
def floatOfFrac (f : Frac) : Option Frac :=
  if f.num = 0 then some ⟨0, 1⟩
  else if f.num < 0 then (roundDbl (-f.num) f.den).map (fun g => ⟨-g.num, g.den⟩)
  else roundDbl f.num f.den

/-- CPython `float(c)` for an int `c`: the correctly rounded binary64
value, raising `OverflowError` (modelled as `none`) when `c` rounds to
infinity. -/
def floatOfInt (c : Int) : Option Frac := floatOfFrac ⟨c, 1⟩

/-- CPython binary64 multiplication: the exact product, correctly rounded.
In this program the second factor is `SCOOPS_PER_CUP`, of magnitude below
1, so the rounded product never reaches the overflow threshold when both
factors are finite doubles; the fallback value is unreachable. -/
def floatMul (x y : Frac) : Frac :=
  (floatOfFrac ⟨x.num * y.num, x.den * y.den⟩).getD ⟨0, 1⟩

/-- `SCOOPS_PER_CUP = 5 / 6`: Python true division of two ints, i.e. the
binary64 value nearest to 5/6. -/
def SCOOPS_PER_CUP : Frac := (floatOfFrac ⟨5, 6⟩).getD ⟨0, 1⟩

/-- Decimal exponent of the positive fraction `n / d`: the unique `e` with
`10 ^ e ≤ n / d < 10 ^ (e + 1)`. -/
def decExpFrac (n d : Int) : Int :=
  if d ≤ n then (digitsLen (n / d).toNat : Int) - 1
  else
    let f : Nat := digitsLen (d / n).toNat - 1
    if n * tenPowInt f = d then -(f : Int) else -((f : Int) + 1)

/-- Render the positive fraction `n / d` with `{:.2g}`: two significant
digits, trailing zero stripped, fixed notation when the decimal exponent
lies in [-4, 2) and scientific notation otherwise. -/
def format2gFracPos (n d : Int) : String :=
  let e0 := decExpFrac n d
  let k := 1 - e0
  let p := if 0 ≤ k then n * tenPowInt k.toNat else n
  let q := if 0 ≤ k then d else d * tenPowInt (-k).toNat
  let m := roundHalfEvenFrac p q
  let s : Nat := if m = 100 then 10 else m.toNat
  let e : Int := if m = 100 then e0 + 1 else e0
  let d1 := s / 10
  let d2 := s % 10
  if -4 ≤ e ∧ e < 2 then
    if e = 1 then toString s
    else if e = 0 then
      if d2 = 0 then toString d1 else toString d1 ++ "." ++ toString d2
    else
      "0." ++ String.mk (List.replicate (-e - 1).toNat '0') ++
        (if d2 = 0 then toString d1 else toString d1 ++ toString d2)
  else
    let mant := if d2 = 0 then toString d1 else toString d1 ++ "." ++ toString d2
    let esign := if 0 ≤ e then "+" else "-"
    let ea := e.natAbs
    let estr := if ea < 10 then "0" ++ toString ea else toString ea
    mant ++ "e" ++ esign ++ estr

/-- Python `{:.2g}` formatting of a fraction with positive denominator. -/
def format2g (f : Frac) : String :=
  if f.num = 0 then "0"
  else if f.num < 0 then "-" ++ format2gFracPos (-f.num) f.den
  else format2gFracPos f.num f.den

/-- `build_output_speech`. -/
def buildOutputSpeech (text : String) : OutputSpeech :=
  { type := "PlainText", text := text }

/-- `build_card`: `None` when the title is falsy, else a Simple card. -/
def buildCard (title : Option String) (content : String) : Option Card :=
  if truthy title then
    some { type := "Simple", title := title.getD "", content := content }
  else
    none

/-- `build_reprompt`: `None` when the text is falsy. -/
def buildReprompt (text : Option String) : Option Reprompt :=
  if truthy text then
    some { outputSpeech := buildOutputSpeech (text.getD "") }
  else
    none

/-- `build_response`. -/
def buildResponse (sessionAttributes : List (String × String))
    (cardTitle : Option String) (output : String)
    (repromptText : Option String) (shouldEndSession : Bool) : Response :=
  { version := "1.0"
    sessionAttributes := sessionAttributes
    response :=
      { card := buildCard cardTitle output
        outputSpeech := buildOutputSpeech output
        reprompt := buildReprompt repromptText
        shouldEndSession := shouldEndSession } }

/-- `get_welcome_response`. -/
def getWelcomeResponse : Response :=
  buildResponse [] none "How many cups of coffee are you making?" none false

/-- The inner `bad_response` closure of `get_scoops_for_cups`. -/
def badResponse : Response :=
  buildResponse [] none "I'm not sure how many cups you're making."
    (some "How many cups of coffee are you making?") false

/-- The success output text of `get_scoops_for_cups`:
`'Use {num_scoops:.2g} scoops for {num_cups} cups.'` with
`num_scoops = num_cups * SCOOPS_PER_CUP` computed in binary64 (`cd` is the
double obtained from `num_cups`). -/
def scoopsOutput (numCups : Int) (cd : Frac) : String :=
  "Use " ++ format2g (floatMul cd SCOOPS_PER_CUP) ++ " scoops for " ++
    toString numCups ++ " cups."

/-- The output text the program would produce for a cup count, `none` when
the int-to-float conversion overflows. -/
def scoopsText (c : Int) : Option String := (floatOfInt c).map (scoopsOutput c)

/-- `get_scoops_for_cups`.  The `try` block catches only `KeyError`, so a
missing `Cups` slot or a slot dictionary without a `value` key yields
`bad_response`, while a present value that `int()` rejects propagates the
`ValueError` out of the handler, and a parsed int beyond the binary64
range propagates the `OverflowError` of the int-to-float conversion in
`num_cups * SCOOPS_PER_CUP`. -/
def getScoopsForCups (intent : Intent) (session : Session) :
    Except PyErr (Option Response) :=
  match intent.slots.lookup "Cups" with
  | none => .ok (some badResponse)
  | some slotValue =>
    match slotValue with
    | none => .ok (some badResponse)
    | some v =>
      match parseIntPy v with
      | none => .error .valueError
      | some numCups =>
        match floatOfInt numCups with
        | none => .error .overflowError
        | some cd =>
          .ok (some (buildResponse [] (some "Coffee scoops")
            (scoopsOutput numCups cd) none true))

/-- `on_launch`. -/
def onLaunch (request : Request) (session : Session) :
    Except PyErr (Option Response) :=
  .ok (some getWelcomeResponse)

/-- `on_intent`: reads `request['intent']` (a `KeyError` when absent),
dispatches the two known intent names, and raises `ValueError` otherwise. -/
def onIntent (request : Request) (session : Session) :
    Except PyErr (Option Response) :=
  match request.intent with
  | none => .error .keyError
  | some intent =>
    if intent.name = "ScoopsForCupsIntent" then
      getScoopsForCups intent session
    else if intent.name = "AMAZON.HelpIntent" then
      .ok (some getWelcomeResponse)
    else
      .error .valueError

/-- `on_session_ended`: returns `None`. -/
def onSessionEnded (request : Request) (session : Session) :
    Except PyErr (Option Response) :=
  .ok none

/-- `lambda_handler`: the dictionary lookup on `event['request']['type']`
raises `KeyError` for an unknown type; otherwise the selected handler runs
on the request and session. -/
def lambdaHandler (event : Event) (context : Context) :
    Except PyErr (Option Response) :=
  if event.request.type = "LaunchRequest" then
    onLaunch event.request event.session
  else if event.request.type = "IntentRequest" then
    onIntent event.request event.session
  else if event.request.type = "SessionEndedRequest" then
    onSessionEnded event.request event.session
  else
    .error .keyError

/-- A `Cups` slot value of 10 ^ 309, one followed by 309 zeros: `int()`
parses it, but the int-to-float conversion overflows binary64. -/
def overflowCupsValue : String := String.mk ('1' :: List.replicate 309 '0')

/-- A `Cups` slot value of 2 * 10 ^ 309, two followed by 309 zeros: also
parsed by `int()` and also past the binary64 range. -/
def overflowCupsValue2 : String := String.mk ('2' :: List.replicate 309 '0')

/-- Every successful non-`None` reply of the handler is the welcome
response, the clarifying response, or the scoops response for some parsed
cup count and its double. -/
theorem lambdaHandler_ok_cases (event : Event) (context : Context)
    (r : Response) (h : lambdaHandler event context = .ok (some r)) :
    r = getWelcomeResponse ∨ r = badResponse ∨
      ∃ (c : Int) (cd : Frac),
        r = buildResponse [] (some "Coffee scoops") (scoopsOutput c cd)
          none true := by
  unfold lambdaHandler onLaunch onIntent onSessionEnded getScoopsForCups at h
  repeat' split at h
  all_goals simp at h
  all_goals first
    | exact Or.inl h.symm
    | exact Or.inr (Or.inl h.symm)
    | exact Or.inr (Or.inr ⟨_, _, h.symm⟩)

/-- C1 counterexample: an IntentRequest for `ScoopsForCupsIntent` whose
`Cups` slot holds the unparsable value "abc" makes the invocation fail
with `ValueError` instead of returning the clarifying response: the `try`
block around `int(...)` catches only `KeyError`. -/
theorem c1_counterexample :
    lambdaHandler
      ⟨⟨"IntentRequest", some ⟨"ScoopsForCupsIntent", [("Cups", some "abc")]⟩⟩, []⟩ []
      = .error .valueError ∧
    lambdaHandler
      ⟨⟨"IntentRequest", some ⟨"ScoopsForCupsIntent", [("Cups", some "abc")]⟩⟩, []⟩ []
      ≠ .ok (some badResponse) :=
  ⟨rfl, fun h => Except.noConfusion h⟩

/-- C1 (amended): for every IntentRequest with intent name
`ScoopsForCupsIntent` whose `Cups` slot is present with a value that does
not parse as an integer, the invocation fails with `ValueError`; the
clarifying response is produced only when the slot or its `value` key is
absent (the `KeyError` cases). -/
theorem c1_unparsable_value_raises (slots : List (String × Option String))
    (v : String) (session : Session) (context : Context)
    (hv : slots.lookup "Cups" = some (some v)) (hp : parseIntPy v = none) :
    lambdaHandler
      ⟨⟨"IntentRequest", some ⟨"ScoopsForCupsIntent", slots⟩⟩, session⟩ context
      = .error .valueError := by
  simp [lambdaHandler, onIntent, getScoopsForCups, hv, hp]

/-- C1 witness: the amended statement instantiated at the slot value
"abc". -/
theorem c1_unparsable_value_raises_witness :
    ([("Cups", some "abc")] : List (String × Option String)).lookup "Cups"
      = some (some "abc") ∧
    parseIntPy "abc" = none ∧
    lambdaHandler
      ⟨⟨"IntentRequest", some ⟨"ScoopsForCupsIntent", [("Cups", some "abc")]⟩⟩, []⟩ []
      = .error .valueError :=
  ⟨rfl, rfl, c1_unparsable_value_raises [("Cups", some "abc")] "abc" [] [] rfl rfl⟩

set_option maxRecDepth 4000 in
/-- C2 counterexample: the claim fails at parsed cups = 10 ^ 309, which
`int()` accepts but whose conversion to a float in
`num_cups * SCOOPS_PER_CUP` raises an uncaught `OverflowError`, so no
output text exists at all. -/
theorem c2_counterexample :
    parseIntPy overflowCupsValue = some (tenPowInt 309) ∧
    getScoopsForCups
      ⟨"ScoopsForCupsIntent", [("Cups", some overflowCupsValue)]⟩ []
      = .error .overflowError :=
  ⟨rfl, rfl⟩

/-- C2 (amended): for every parsed integer cup count that converts to a
float without overflowing — zero and negative values included, no
validation rejects them — the output text of `get_scoops_for_cups`
contains the binary64 product of that float with `SCOOPS_PER_CUP`
rendered with `{:.2g}`; at cups = 1, 10 and 6 this coincides with the
exact rational cups * 5/6 rendered to 2 significant figures: "0.83",
"8.3" and "5" (the 2-significant-figure rendering of 5.0).  A parsed
integer past the binary64 range makes the invocation fail with
`OverflowError` and produces no output text. -/
theorem c2_scoops_two_sig_figs (name : String)
    (slots : List (String × Option String)) (v : String) (cups : Int)
    (cd : Frac) (session : Session)
    (hv : slots.lookup "Cups" = some (some v))
    (hp : parseIntPy v = some cups)
    (hc : floatOfInt cups = some cd) :
    (∃ r : Response,
      getScoopsForCups ⟨name, slots⟩ session = .ok (some r) ∧
      r.response.outputSpeech.text =
        "Use " ++ format2g (floatMul cd SCOOPS_PER_CUP) ++
          " scoops for " ++ toString cups ++ " cups.") ∧
    (⟨5 * cups, 6⟩ : Frac).toRat = (cups : ℚ) * (5 / 6) ∧
    scoopsText 1 = some "Use 0.83 scoops for 1 cups." ∧
    scoopsText 10 = some "Use 8.3 scoops for 10 cups." ∧
    scoopsText 6 = some "Use 5 scoops for 6 cups." ∧
    format2g ⟨5, 6⟩ = "0.83" ∧
    format2g ⟨50, 6⟩ = "8.3" ∧
    format2g ⟨30, 6⟩ = "5" := by
  refine ⟨⟨buildResponse [] (some "Coffee scoops") (scoopsOutput cups cd)
    none true, ?_, rfl⟩, ?_, rfl, rfl, rfl, rfl, rfl, rfl⟩
  · simp [getScoopsForCups, hv, hp, hc]
  · simp only [Frac.toRat]
    push_cast
    ring

/-- C2 witness: the amended statement instantiated at the slot value "10",
whose double is 5629499534213120 / 2 ^ 49. -/
theorem c2_scoops_two_sig_figs_witness :
    ([("Cups", some "10")] : List (String × Option String)).lookup "Cups"
      = some (some "10") ∧
    parseIntPy "10" = some 10 ∧
    floatOfInt 10 = some ⟨5629499534213120, 562949953421312⟩ ∧
    ((∃ r : Response,
      getScoopsForCups ⟨"ScoopsForCupsIntent", [("Cups", some "10")]⟩ []
        = .ok (some r) ∧
      r.response.outputSpeech.text =
        "Use " ++
          format2g (floatMul ⟨5629499534213120, 562949953421312⟩ SCOOPS_PER_CUP)
          ++ " scoops for " ++ toString (10 : Int) ++ " cups.") ∧
    (⟨5 * (10 : Int), 6⟩ : Frac).toRat = ((10 : Int) : ℚ) * (5 / 6) ∧
    scoopsText 1 = some "Use 0.83 scoops for 1 cups." ∧
    scoopsText 10 = some "Use 8.3 scoops for 10 cups." ∧
    scoopsText 6 = some "Use 5 scoops for 6 cups." ∧
    format2g ⟨5, 6⟩ = "0.83" ∧
    format2g ⟨50, 6⟩ = "8.3" ∧
    format2g ⟨30, 6⟩ = "5") :=
  ⟨rfl, rfl, rfl,
    c2_scoops_two_sig_figs "ScoopsForCupsIntent" [("Cups", some "10")] "10" 10
      ⟨5629499534213120, 562949953421312⟩ [] rfl rfl rfl⟩

set_option maxRecDepth 4000 in
/-- C3 counterexample: the claim fails at parsed cups = 2 * 10 ^ 309,
which `int()` accepts but whose conversion to a float raises an uncaught
`OverflowError`, so the invocation fails instead of returning the full
success Response. -/
theorem c3_counterexample :
    parseIntPy overflowCupsValue2 = some (2 * tenPowInt 309) ∧
    lambdaHandler
      ⟨⟨"IntentRequest",
        some ⟨"ScoopsForCupsIntent", [("Cups", some overflowCupsValue2)]⟩⟩, []⟩ []
      = .error .overflowError :=
  ⟨rfl, rfl⟩

/-- C3 (amended): for every IntentRequest for `ScoopsForCupsIntent` whose
`Cups` slot parses as an integer that converts to a float without
overflowing, the reply has output text
"Use (scoops) scoops for (cups) cups." with the scoops count computed in
binary64, a card titled "Coffee scoops" whose content is that same text, a
null re-prompt, and `shouldEndSession = true`; a parsed integer past the
binary64 range makes the invocation fail with `OverflowError`. -/
theorem c3_success_response_shape (slots : List (String × Option String))
    (v : String) (cups : Int) (cd : Frac) (session : Session)
    (context : Context)
    (hv : slots.lookup "Cups" = some (some v))
    (hp : parseIntPy v = some cups)
    (hc : floatOfInt cups = some cd) :
    ∃ r : Response,
      lambdaHandler
        ⟨⟨"IntentRequest", some ⟨"ScoopsForCupsIntent", slots⟩⟩, session⟩ context
        = .ok (some r) ∧
      r.response.outputSpeech.text =
        "Use " ++ format2g (floatMul cd SCOOPS_PER_CUP) ++
          " scoops for " ++ toString cups ++ " cups." ∧
      r.response.card =
        some ⟨"Simple", "Coffee scoops", r.response.outputSpeech.text⟩ ∧
      r.response.reprompt = none ∧
      r.response.shouldEndSession = true := by
  refine ⟨buildResponse [] (some "Coffee scoops") (scoopsOutput cups cd)
    none true, ?_, rfl, rfl, rfl, rfl⟩
  simp [lambdaHandler, onIntent, getScoopsForCups, hv, hp, hc]

/-- C3 witness: the amended statement instantiated at the slot value "10",
whose double is 5629499534213120 / 2 ^ 49. -/
theorem c3_success_response_shape_witness :
    ([("Cups", some "10")] : List (String × Option String)).lookup "Cups"
      = some (some "10") ∧
    parseIntPy "10" = some 10 ∧
    floatOfInt 10 = some ⟨5629499534213120, 562949953421312⟩ ∧
    (∃ r : Response,
      lambdaHandler
        ⟨⟨"IntentRequest",
          some ⟨"ScoopsForCupsIntent", [("Cups", some "10")]⟩⟩, []⟩ []
        = .ok (some r) ∧
      r.response.outputSpeech.text =
        "Use " ++
          format2g (floatMul ⟨5629499534213120, 562949953421312⟩ SCOOPS_PER_CUP)
          ++ " scoops for " ++ toString (10 : Int) ++ " cups." ∧
      r.response.card =
        some ⟨"Simple", "Coffee scoops", r.response.outputSpeech.text⟩ ∧
      r.response.reprompt = none ∧
      r.response.shouldEndSession = true) :=
  ⟨rfl, rfl, rfl,
    c3_success_response_shape [("Cups", some "10")] "10" 10
      ⟨5629499534213120, 562949953421312⟩ [] [] rfl rfl rfl⟩

/-- C4: every LaunchRequest yields a reply with output text exactly
"How many cups of coffee are you making?", a null card, a null re-prompt,
and `shouldEndSession = false`. -/
theorem c4_launch_response (intentOpt : Option Intent) (session : Session)
    (context : Context) :
    ∃ r : Response,
      lambdaHandler ⟨⟨"LaunchRequest", intentOpt⟩, session⟩ context
        = .ok (some r) ∧
      r.response.outputSpeech.text = "How many cups of coffee are you making?" ∧
      r.response.card = none ∧
      r.response.reprompt = none ∧
      r.response.shouldEndSession = false :=
  ⟨getWelcomeResponse, rfl, rfl, rfl, rfl, rfl⟩

/-- C5: an IntentRequest for `ScoopsForCupsIntent` whose `Cups` slot is
absent, or present without a `value` key, yields the clarifying response:
output "I'm not sure how many cups you're making.", a non-null re-prompt
with the clarifying question, no card, and `shouldEndSession = false`. -/
theorem c5_missing_slot_clarifies (slots : List (String × Option String))
    (session : Session) (context : Context)
    (h : slots.lookup "Cups" = none ∨ slots.lookup "Cups" = some none) :
    lambdaHandler
      ⟨⟨"IntentRequest", some ⟨"ScoopsForCupsIntent", slots⟩⟩, session⟩ context
      = .ok (some badResponse) ∧
    badResponse.response.outputSpeech.text =
      "I'm not sure how many cups you're making." ∧
    badResponse.response.reprompt =
      some ⟨⟨"PlainText", "How many cups of coffee are you making?"⟩⟩ ∧
    badResponse.response.card = none ∧
    badResponse.response.shouldEndSession = false := by
  refine ⟨?_, rfl, rfl, rfl, rfl⟩
  rcases h with h | h <;> simp [lambdaHandler, onIntent, getScoopsForCups, h]

/-- C5 witness: the statement instantiated at an empty slot dictionary. -/
theorem c5_missing_slot_clarifies_witness :
    (([] : List (String × Option String)).lookup "Cups" = none ∨
      ([] : List (String × Option String)).lookup "Cups" = some none) ∧
    (lambdaHandler
      ⟨⟨"IntentRequest", some ⟨"ScoopsForCupsIntent", []⟩⟩, []⟩ []
      = .ok (some badResponse) ∧
    badResponse.response.outputSpeech.text =
      "I'm not sure how many cups you're making." ∧
    badResponse.response.reprompt =
      some ⟨⟨"PlainText", "How many cups of coffee are you making?"⟩⟩ ∧
    badResponse.response.card = none ∧
    badResponse.response.shouldEndSession = false) :=
  ⟨Or.inl rfl, c5_missing_slot_clarifies [] [] [] (Or.inl rfl)⟩

/-- C6: the invocation fails (with `KeyError` from the handler-table
lookup) when the request type is none of the three known values, and fails
(with the raised `ValueError`) when an IntentRequest's intent name is
neither `ScoopsForCupsIntent` nor `AMAZON.HelpIntent`. -/
theorem c6_unknown_routes_fail :
    (∀ (req : Request) (session : Session) (context : Context),
      req.type ≠ "LaunchRequest" → req.type ≠ "IntentRequest" →
      req.type ≠ "SessionEndedRequest" →
      lambdaHandler ⟨req, session⟩ context = .error .keyError) ∧
    (∀ (intent : Intent) (session : Session) (context : Context),
      intent.name ≠ "ScoopsForCupsIntent" → intent.name ≠ "AMAZON.HelpIntent" →
      lambdaHandler ⟨⟨"IntentRequest", some intent⟩, session⟩ context
        = .error .valueError) := by
  constructor
  · intro req session context h1 h2 h3
    simp [lambdaHandler, h1, h2, h3]
  · intro intent session context h1 h2
    simp [lambdaHandler, onIntent, h1, h2]

/-- C6 witness: an unknown request type and an unknown intent name both
fail the invocation. -/
theorem c6_unknown_routes_fail_witness :
    ("BogusRequest" : String) ≠ "LaunchRequest" ∧
    ("BogusRequest" : String) ≠ "IntentRequest" ∧
    ("BogusRequest" : String) ≠ "SessionEndedRequest" ∧
    lambdaHandler ⟨⟨"BogusRequest", none⟩, []⟩ [] = .error .keyError ∧
    ("BogusIntent" : String) ≠ "ScoopsForCupsIntent" ∧
    ("BogusIntent" : String) ≠ "AMAZON.HelpIntent" ∧
    lambdaHandler ⟨⟨"IntentRequest", some ⟨"BogusIntent", []⟩⟩, []⟩ []
      = .error .valueError :=
  ⟨by decide, by decide, by decide,
    c6_unknown_routes_fail.1 ⟨"BogusRequest", none⟩ [] []
      (by decide) (by decide) (by decide),
    by decide, by decide,
    c6_unknown_routes_fail.2 ⟨"BogusIntent", []⟩ [] [] (by decide) (by decide)⟩

/-- C7: an `AMAZON.HelpIntent` request returns a reply identical to the
reply for a bare LaunchRequest, whatever the slots, sessions and
contexts. -/
theorem c7_help_equals_launch (slots : List (String × Option String))
    (intentOpt : Option Intent) (s1 s2 : Session) (c1 c2 : Context) :
    lambdaHandler ⟨⟨"IntentRequest", some ⟨"AMAZON.HelpIntent", slots⟩⟩, s1⟩ c1
      = lambdaHandler ⟨⟨"LaunchRequest", intentOpt⟩, s2⟩ c2 :=
  rfl

/-- C8: every reply the handler returns has version "1.0", an empty
session-attributes mapping, a card that is null or a well-formed Simple
card, a re-prompt that is null or a well-formed PlainText re-prompt, and a
boolean end-of-session flag; and in `build_response` the card is null
exactly when no title is supplied and the re-prompt is null exactly when
no re-prompt text is supplied. -/
theorem c8_response_invariants :
    (∀ (event : Event) (context : Context) (r : Response),
      lambdaHandler event context = .ok (some r) →
      r.version = "1.0" ∧ r.sessionAttributes = [] ∧
      (r.response.card = none ∨
        ∃ t c, r.response.card = some ⟨"Simple", t, c⟩) ∧
      (r.response.reprompt = none ∨
        ∃ t, r.response.reprompt = some ⟨⟨"PlainText", t⟩⟩) ∧
      (r.response.shouldEndSession = true ∨
        r.response.shouldEndSession = false)) ∧
    (∀ (sa : List (String × String)) (ct : Option String) (out : String)
        (rt : Option String) (ses : Bool),
      ((buildResponse sa ct out rt ses).response.card = none ↔
        truthy ct = false) ∧
      ((buildResponse sa ct out rt ses).response.reprompt = none ↔
        truthy rt = false)) := by
  constructor
  · intro event context r h
    rcases lambdaHandler_ok_cases event context r h with h' | h' | ⟨c, cd, h'⟩ <;>
      subst h'
    · exact ⟨rfl, rfl, Or.inl rfl, Or.inl rfl, Or.inr rfl⟩
    · exact ⟨rfl, rfl, Or.inl rfl, Or.inr ⟨_, rfl⟩, Or.inr rfl⟩
    · exact ⟨rfl, rfl, Or.inr ⟨_, _, rfl⟩, Or.inl rfl, Or.inl rfl⟩
  · intro sa ct out rt ses
    constructor
    · cases hct : truthy ct <;>
        simp [buildResponse, buildCard, buildReprompt, hct]
    · cases hrt : truthy rt <;>
        simp [buildResponse, buildCard, buildReprompt, hrt]

/-- C8 witness: the invariant read off on the welcome reply of a
LaunchRequest. -/
theorem c8_response_invariants_witness :
    lambdaHandler ⟨⟨"LaunchRequest", none⟩, []⟩ []
      = .ok (some getWelcomeResponse) ∧
    (getWelcomeResponse.version = "1.0" ∧
      getWelcomeResponse.sessionAttributes = [] ∧
      (getWelcomeResponse.response.card = none ∨
        ∃ t c, getWelcomeResponse.response.card = some ⟨"Simple", t, c⟩) ∧
      (getWelcomeResponse.response.reprompt = none ∨
        ∃ t, getWelcomeResponse.response.reprompt
          = some ⟨⟨"PlainText", t⟩⟩) ∧
      (getWelcomeResponse.response.shouldEndSession = true ∨
        getWelcomeResponse.response.shouldEndSession = false)) :=
  ⟨rfl,
    c8_response_invariants.1 ⟨⟨"LaunchRequest", none⟩, []⟩ []
      getWelcomeResponse rfl⟩

/-- C9: a SessionEndedRequest yields no reply body, and every other
successfully routed path yields a full reply. -/
theorem c9_session_ended_no_reply :
    (∀ (intentOpt : Option Intent) (session : Session) (context : Context),
      lambdaHandler ⟨⟨"SessionEndedRequest", intentOpt⟩, session⟩ context
        = .ok none) ∧
    (∀ (event : Event) (context : Context) (x : Option Response),
      lambdaHandler event context = .ok x →
      event.request.type ≠ "SessionEndedRequest" →
      ∃ r, x = some r) := by
  constructor
  · intro _ _ _
    rfl
  · intro event context x h hne
    unfold lambdaHandler onLaunch onIntent onSessionEnded getScoopsForCups at h
    repeat' split at h
    all_goals simp at h
    all_goals exact ⟨_, h.symm⟩

/-- C9 witness: a SessionEndedRequest returns `None` while a LaunchRequest
returns a reply body. -/
theorem c9_session_ended_no_reply_witness :
    lambdaHandler ⟨⟨"SessionEndedRequest", none⟩, []⟩ [] = .ok none ∧
    ("LaunchRequest" : String) ≠ "SessionEndedRequest" ∧
    (∃ r, (some getWelcomeResponse : Option Response) = some r) :=
  ⟨c9_session_ended_no_reply.1 none [] [],
    by decide,
    c9_session_ended_no_reply.2 ⟨⟨"LaunchRequest", none⟩, []⟩ []
      (some getWelcomeResponse) rfl (by decide)⟩

/-- C10: the reply depends only on the request: two invocations with the
same request field but different sessions and contexts return identical
values, and every reply carries an empty session-attributes mapping. -/
theorem c10_session_context_noninterference :
    (∀ (req : Request) (s1 s2 : Session) (c1 c2 : Context),
      lambdaHandler ⟨req, s1⟩ c1 = lambdaHandler ⟨req, s2⟩ c2) ∧
    (∀ (event : Event) (context : Context) (r : Response),
      lambdaHandler event context = .ok (some r) →
      r.sessionAttributes = []) := by
  constructor
  · intro req s1 s2 c1 c2
    simp [lambdaHandler, onLaunch, onIntent, onSessionEnded, getScoopsForCups]
  · intro event context r h
    rcases lambdaHandler_ok_cases event context r h with h' | h' | ⟨c, cd, h'⟩ <;>
      subst h' <;> rfl

/-- C10 witness: a LaunchRequest with different sessions and contexts
returns the same reply, whose session attributes are empty. -/
theorem c10_session_context_noninterference_witness :
    lambdaHandler ⟨⟨"LaunchRequest", none⟩, [("k", "v")]⟩ [("c", "1")]
      = lambdaHandler ⟨⟨"LaunchRequest", none⟩, []⟩ [] ∧
    getWelcomeResponse.sessionAttributes = [] :=
  ⟨c10_session_context_noninterference.1 ⟨"LaunchRequest", none⟩
      [("k", "v")] [] [("c", "1")] [],
    c10_session_context_noninterference.2 ⟨⟨"LaunchRequest", none⟩, []⟩ []
      getWelcomeResponse rfl⟩
